import Mathlib

/-!
Verification of `s3car_config.py` (vlouf/comrad): a shallow embedding in Lean 4
of the radar site-configuration pipeline, and proofs about it.

The source is Python. Machine floats are modelled by exact rationals (ℚ); a
Python division whose divisor is zero raises `ZeroDivisionError`, which the
embedding makes explicit as an error value. Where rounding is observable —
the band classifier at a shared band boundary — a binary64 model
(`roundDouble`, one round-to-nearest-ties-even per operation) captures the
source's double arithmetic exactly. Filesystem state is modelled as a
record of optional file contents (cache file, temp file, output file), and the
output file's content is represented by the table value that `to_csv`
serializes (serialization is a deterministic function of the table).
-/

namespace S3car

/-! ## Frequency band classifier (`get_frequency_band`) -/

/-- Errors that `get_frequency_band` can raise: the `ValueError` of the source
("Invalid radar wavelength"), or Python's `ZeroDivisionError` when the
wavelength is zero. -/
inductive FreqErr where
  | zeroDivision
  | invalidWavelength
deriving DecidableEq, Repr

/-- The table `ieee_freq_band_ghz` from the source: (name, freq min, freq max). -/
def ieee_freq_band_ghz : List (String × ℚ × ℚ) :=
  [("L", 1, 2),
   ("S", 2, 4),
   ("C", 4, 8),
   ("X", 8, 12),
   ("Ku", 12, 18),
   ("K", 18, 27),
   ("Ka", 27, 40),
   ("V", 40, 75),
   ("W", 75, 110)]

/-- The `for band, fmin, fmax in ieee_freq_band_ghz` loop: return the first
band whose inclusive range contains `ghz`, else raise `ValueError`. -/
def findBand (ghz : ℚ) : List (String × ℚ × ℚ) → Except FreqErr String
  | [] => .error .invalidWavelength
  | (band, fmin, fmax) :: rest =>
      if ghz ≥ fmin ∧ ghz ≤ fmax then .ok band else findBand ghz rest

/-- `get_frequency_band(wavelength)`: `ghz = 1e-9 * 300_000_000 / (wavelength * 1e-2)`,
then first-match lookup in `ieee_freq_band_ghz`. A zero divisor raises
`ZeroDivisionError` in the source, modelled by the explicit guard.

This version idealizes the arithmetic as exact rationals; it agrees with the
source's IEEE doubles in band interiors but not within rounding error of a
band boundary — see `get_frequency_band_double` below for the
rounding-faithful semantics there. -/
def get_frequency_band (wavelength : ℚ) : Except FreqErr String :=
  if wavelength * (1 / 100) = 0 then .error .zeroDivision
  else findBand ((1 / 1000000000) * 300000000 / (wavelength * (1 / 100))) ieee_freq_band_ghz

/-- The derived frequency in GHz as the spec writes it: `0.3 / (w / 100)`. -/
def freqGhz (w : ℚ) : ℚ := (3 / 10) / (w / 100)

/-- The nine IEEE band names. -/
def bandNames : List String := ["L", "S", "C", "X", "Ku", "K", "Ka", "V", "W"]

/-- An entry's inclusive range contains the frequency. -/
def bandMatches (f : ℚ) (e : String × ℚ × ℚ) : Bool :=
  decide (e.2.1 ≤ f) && decide (f ≤ e.2.2)

/-- The first entry of the table, in order, whose inclusive range contains `f`. -/
def firstBand (f : ℚ) : Option String :=
  (ieee_freq_band_ghz.find? (bandMatches f)).map (·.1)

theorem freq_formula (w : ℚ) :
    (1 / 1000000000 : ℚ) * 300000000 / (w * (1 / 100)) = freqGhz w := by
  unfold freqGhz
  ring_nf

theorem get_frequency_band_of_ne_zero (w : ℚ) (hw : w ≠ 0) :
    get_frequency_band w = findBand (freqGhz w) ieee_freq_band_ghz := by
  unfold get_frequency_band
  rw [if_neg (by simpa using hw), freq_formula]

/-- Helper: on [1, 110] the lookup succeeds, yields a listed band name, and
agrees with the first matching entry of the table. -/
theorem findBand_total (f : ℚ) (h1 : 1 ≤ f) (h2 : f ≤ 110) :
    ∃ b, findBand f ieee_freq_band_ghz = .ok b ∧ b ∈ bandNames ∧ firstBand f = some b := by
  by_cases hL : f ≤ 2
  · exact ⟨"L", by simp [findBand, ieee_freq_band_ghz, h1, hL],
      by simp [bandNames], by simp [firstBand, ieee_freq_band_ghz, bandMatches, h1, hL]⟩
  · have hL' : (2 : ℚ) ≤ f := le_of_lt (not_le.mp hL)
    by_cases hS : f ≤ 4
    · exact ⟨"S", by simp [findBand, ieee_freq_band_ghz, hL, hL', hS],
        by simp [bandNames], by simp [firstBand, ieee_freq_band_ghz, bandMatches, hL, hL', hS]⟩
    · have hS' : (4 : ℚ) ≤ f := le_of_lt (not_le.mp hS)
      by_cases hC : f ≤ 8
      · exact ⟨"C", by simp [findBand, ieee_freq_band_ghz, hL, hS, hS', hC],
          by simp [bandNames], by simp [firstBand, ieee_freq_band_ghz, bandMatches, hL, hS, hS', hC]⟩
      · have hC' : (8 : ℚ) ≤ f := le_of_lt (not_le.mp hC)
        by_cases hX : f ≤ 12
        · exact ⟨"X", by simp [findBand, ieee_freq_band_ghz, hL, hS, hC, hC', hX],
            by simp [bandNames], by simp [firstBand, ieee_freq_band_ghz, bandMatches, hL, hS, hC, hC', hX]⟩
        · have hX' : (12 : ℚ) ≤ f := le_of_lt (not_le.mp hX)
          by_cases hKu : f ≤ 18
          · exact ⟨"Ku", by simp [findBand, ieee_freq_band_ghz, hL, hS, hC, hX, hX', hKu],
              by simp [bandNames], by simp [firstBand, ieee_freq_band_ghz, bandMatches, hL, hS, hC, hX, hX', hKu]⟩
          · have hKu' : (18 : ℚ) ≤ f := le_of_lt (not_le.mp hKu)
            by_cases hK : f ≤ 27
            · exact ⟨"K", by simp [findBand, ieee_freq_band_ghz, hL, hS, hC, hX, hKu, hKu', hK],
                by simp [bandNames], by simp [firstBand, ieee_freq_band_ghz, bandMatches, hL, hS, hC, hX, hKu, hKu', hK]⟩
            · have hK' : (27 : ℚ) ≤ f := le_of_lt (not_le.mp hK)
              by_cases hKa : f ≤ 40
              · exact ⟨"Ka", by simp [findBand, ieee_freq_band_ghz, hL, hS, hC, hX, hKu, hK, hK', hKa],
                  by simp [bandNames], by simp [firstBand, ieee_freq_band_ghz, bandMatches, hL, hS, hC, hX, hKu, hK, hK', hKa]⟩
              · have hKa' : (40 : ℚ) ≤ f := le_of_lt (not_le.mp hKa)
                by_cases hV : f ≤ 75
                · exact ⟨"V", by simp [findBand, ieee_freq_band_ghz, hL, hS, hC, hX, hKu, hK, hKa, hKa', hV],
                    by simp [bandNames], by simp [firstBand, ieee_freq_band_ghz, bandMatches, hL, hS, hC, hX, hKu, hK, hKa, hKa', hV]⟩
                · have hV' : (75 : ℚ) ≤ f := le_of_lt (not_le.mp hV)
                  exact ⟨"W", by simp [findBand, ieee_freq_band_ghz, hL, hS, hC, hX, hKu, hK, hKa, hV, hV', h2],
                    by simp [bandNames], by simp [firstBand, ieee_freq_band_ghz, bandMatches, hL, hS, hC, hX, hKu, hK, hKa, hV, hV', h2]⟩

/-- Helper: a frequency in [1, 110] forces a positive wavelength. -/
theorem wavelength_ne_zero_of_freq (w : ℚ) (h1 : 1 ≤ freqGhz w) : w ≠ 0 := by
  intro h
  rw [h] at h1
  norm_num [freqGhz] at h1

/-- Helper: classification succeeds on [1, 110]. -/
theorem get_frequency_band_ok (w : ℚ) (h1 : 1 ≤ freqGhz w) (h2 : freqGhz w ≤ 110) :
    ∃ b, get_frequency_band w = .ok b ∧ b ∈ bandNames ∧ firstBand (freqGhz w) = some b := by
  rw [get_frequency_band_of_ne_zero w (wavelength_ne_zero_of_freq w h1)]
  exact findBand_total (freqGhz w) h1 h2

/-- Helper: no entry matches outside [1, 110]. -/
theorem findBand_out_of_range (f : ℚ) (h : f < 1 ∨ 110 < f) :
    findBand f ieee_freq_band_ghz = .error .invalidWavelength := by
  rcases h with h | h <;>
    simp only [findBand, ieee_freq_band_ghz] <;>
    rw [if_neg (by rintro ⟨ha, hb⟩; linarith), if_neg (by rintro ⟨ha, hb⟩; linarith),
      if_neg (by rintro ⟨ha, hb⟩; linarith), if_neg (by rintro ⟨ha, hb⟩; linarith),
      if_neg (by rintro ⟨ha, hb⟩; linarith), if_neg (by rintro ⟨ha, hb⟩; linarith),
      if_neg (by rintro ⟨ha, hb⟩; linarith), if_neg (by rintro ⟨ha, hb⟩; linarith),
      if_neg (by rintro ⟨ha, hb⟩; linarith)]

/-- Helper: concrete evaluation at wavelength 0 (division by zero). -/
theorem gfb_zero : get_frequency_band 0 = .error .zeroDivision := by
  simp [get_frequency_band]

/-! ### The source's arithmetic: IEEE binary64

The exact-rational `get_frequency_band` above idealizes the source's double
arithmetic. Away from band boundaries the two agree, but at a shared boundary
the rounding matters: `1e-9 * 300_000_000` is the double `0.30000000000000004`
and at w = 15 the computed frequency is `2.0000000000000004 > 2`, so the
program returns "S" where exact arithmetic gives "L". The model below rounds
after every operation like the hardware does (round to nearest, ties to even,
53-bit significands; overflow and subnormals do not occur in this range). -/

/-- Round a rational to the nearest integer, ties to even (IEEE tie rule). -/
def roundTiesEven (q : ℚ) : ℤ :=
  if q - ⌊q⌋ < 1 / 2 then ⌊q⌋
  else if 1 / 2 < q - ⌊q⌋ then ⌊q⌋ + 1
  else if 2 ∣ ⌊q⌋ then ⌊q⌋ else ⌊q⌋ + 1

/-- Binary64 rounding for the normal range: scale the value into
[2^52, 2^53), round to the nearest 53-bit significand (ties to even), and
scale back. -/
def roundDouble (x : ℚ) : ℚ :=
  if x = 0 then 0
  else if 0 < x then
    ((roundTiesEven (x * (2 : ℚ) ^ ((52 : ℤ) - Int.log 2 x)) : ℤ) : ℚ)
      * (2 : ℚ) ^ (Int.log 2 x - 52)
  else
    -(((roundTiesEven (-x * (2 : ℚ) ^ ((52 : ℤ) - Int.log 2 (-x))) : ℤ) : ℚ)
      * (2 : ℚ) ^ (Int.log 2 (-x) - 52))

/-- Double multiplication: exact product, then one rounding. -/
def fmul (a b : ℚ) : ℚ := roundDouble (a * b)

/-- Double division: exact quotient, then one rounding. -/
def fdiv (a b : ℚ) : ℚ := roundDouble (a / b)

/-- The double denoted by the literal `1e-9`. -/
def lit1em9 : ℚ := roundDouble (1 / 1000000000)

/-- The double denoted by the literal `1e-2`. -/
def lit1em2 : ℚ := roundDouble (1 / 100)

/-- `ghz = 1e-9 * 300_000_000 / (wavelength * 1e-2)` as the program's binary64
arithmetic computes it for an exactly representable wavelength `w`
(`300_000_000` and `15` are exact doubles). -/
def ghzDouble (w : ℚ) : ℚ := fdiv (fmul lit1em9 300000000) (fmul w lit1em2)

/-- `get_frequency_band` under the source's double arithmetic. -/
def get_frequency_band_double (w : ℚ) : Except FreqErr String :=
  if fmul w lit1em2 = 0 then .error .zeroDivision
  else findBand (ghzDouble w) ieee_freq_band_ghz

/-- Helper: pin `Int.log 2` by its characteristic bracket. -/
theorem int_log_eq (x : ℚ) (e : ℤ) (hx : 0 < x)
    (h1 : (2 : ℚ) ^ e ≤ x) (h2 : x < (2 : ℚ) ^ (e + 1)) : Int.log 2 x = e := by
  have ha : e ≤ Int.log 2 x := (Int.zpow_le_iff_le_log one_lt_two hx).mp (by exact_mod_cast h1)
  have hb : Int.log 2 x < e + 1 := (Int.lt_zpow_iff_log_lt one_lt_two hx).mp (by exact_mod_cast h2)
  omega

/-- Helper: evaluate one binary64 rounding whose scaled value sits strictly
below the halfway point. -/
theorem roundDouble_eval_low (x : ℚ) (e : ℤ) (k : ℕ) (f : ℤ)
    (hx : 0 < x) (hk : (52 : ℤ) - e = (k : ℤ))
    (h1 : (2 : ℚ) ^ e ≤ x) (h2 : x < (2 : ℚ) ^ (e + 1))
    (hf : ⌊x * (2 : ℚ) ^ k⌋ = f) (hfr : x * (2 : ℚ) ^ k - f < 1 / 2) :
    roundDouble x = (f : ℚ) * (2 : ℚ) ^ (e - 52) := by
  have hlog := int_log_eq x e hx h1 h2
  have hzk : (2 : ℚ) ^ ((52 : ℤ) - e) = (2 : ℚ) ^ k := by rw [hk, zpow_natCast]
  have hrte : roundTiesEven (x * (2 : ℚ) ^ k) = f := by
    unfold roundTiesEven
    rw [hf, if_pos hfr]
  unfold roundDouble
  rw [if_neg (ne_of_gt hx), if_pos hx, hlog, hzk, hrte]

/-- Helper: evaluate one binary64 rounding whose scaled value sits strictly
above the halfway point. -/
theorem roundDouble_eval_high (x : ℚ) (e : ℤ) (k : ℕ) (f : ℤ)
    (hx : 0 < x) (hk : (52 : ℤ) - e = (k : ℤ))
    (h1 : (2 : ℚ) ^ e ≤ x) (h2 : x < (2 : ℚ) ^ (e + 1))
    (hf : ⌊x * (2 : ℚ) ^ k⌋ = f) (hfr : 1 / 2 < x * (2 : ℚ) ^ k - f) :
    roundDouble x = ((f + 1 : ℤ) : ℚ) * (2 : ℚ) ^ (e - 52) := by
  have hlog := int_log_eq x e hx h1 h2
  have hzk : (2 : ℚ) ^ ((52 : ℤ) - e) = (2 : ℚ) ^ k := by rw [hk, zpow_natCast]
  have hrte : roundTiesEven (x * (2 : ℚ) ^ k) = f + 1 := by
    unfold roundTiesEven
    rw [hf, if_neg (by linarith), if_pos hfr]
  unfold roundDouble
  rw [if_neg (ne_of_gt hx), if_pos hx, hlog, hzk, hrte]

/-- `1e-9` is `4835703278458517 / 2^82` (not exactly 10⁻⁹). -/
theorem lit1em9_val : lit1em9 = 4835703278458517 / 2 ^ 82 := by
  unfold lit1em9
  rw [roundDouble_eval_high (1 / 1000000000) (-30) 82 4835703278458516
    (by norm_num) (by norm_num) (by norm_num) (by norm_num)
    (by rw [Int.floor_eq_iff]; constructor <;> norm_num) (by norm_num)]
  norm_num

/-- `1e-2` is `5764607523034235 / 2^59` (not exactly 1/100). -/
theorem lit1em2_val : lit1em2 = 5764607523034235 / 2 ^ 59 := by
  unfold lit1em2
  rw [roundDouble_eval_high (1 / 100) (-7) 59 5764607523034234
    (by norm_num) (by norm_num) (by norm_num) (by norm_num)
    (by rw [Int.floor_eq_iff]; constructor <;> norm_num) (by norm_num)]
  norm_num

/-- `1e-9 * 300_000_000` computes to `0.30000000000000004`, one ulp above 0.3. -/
theorem fmul_c_val : fmul lit1em9 300000000 = 5404319552844596 / 2 ^ 54 := by
  unfold fmul
  rw [lit1em9_val]
  rw [roundDouble_eval_high (4835703278458517 / 2 ^ 82 * 300000000) (-2) 54 5404319552844595
    (by norm_num) (by norm_num) (by norm_num) (by norm_num)
    (by rw [Int.floor_eq_iff]; constructor <;> norm_num) (by norm_num)]
  norm_num

/-- `15 * 1e-2` computes to `5404319552844595 / 2^55`. -/
theorem fmul_p_val : fmul 15 lit1em2 = 5404319552844595 / 2 ^ 55 := by
  unfold fmul
  rw [lit1em2_val]
  rw [roundDouble_eval_low (15 * (5764607523034235 / 2 ^ 59)) (-3) 55 5404319552844595
    (by norm_num) (by norm_num) (by norm_num) (by norm_num)
    (by rw [Int.floor_eq_iff]; constructor <;> norm_num) (by norm_num)]
  norm_num

/-- At w = 15 the program computes `2.0000000000000004`, one ulp above 2. -/
theorem ghzDouble_fifteen : ghzDouble 15 = 2 + 1 / 2 ^ 51 := by
  unfold ghzDouble fdiv
  rw [fmul_c_val, fmul_p_val]
  rw [roundDouble_eval_high (5404319552844596 / 2 ^ 54 / (5404319552844595 / 2 ^ 55)) 1 51
    4503599627370496
    (by norm_num) (by norm_num) (by norm_num) (by norm_num)
    (by rw [Int.floor_eq_iff]; constructor <;> norm_num) (by norm_num)]
  norm_num

/-- Helper: under double arithmetic w = 15 classifies as "S". -/
theorem gfb_double_fifteen : get_frequency_band_double 15 = .ok "S" := by
  unfold get_frequency_band_double
  rw [if_neg (by rw [fmul_p_val]; norm_num), ghzDouble_fifteen]
  norm_num [findBand, ieee_freq_band_ghz]

/-- C1 counterexample: at w = 15 cm the exact derived frequency is exactly
2 GHz — inside [1, 110], and the first table entry containing it is "L" — yet
the program's binary64 arithmetic computes 2 + 2⁻⁵¹ GHz and returns the later
band "S", so the boundary case of the claim is false of the code. -/
theorem c1_boundary_counterexample :
    freqGhz 15 = 2
      ∧ firstBand (freqGhz 15) = some "L"
      ∧ ghzDouble 15 = 2 + 1 / 2 ^ 51
      ∧ get_frequency_band_double 15 = .ok "S" := by
  have h2 : freqGhz 15 = 2 := by norm_num [freqGhz]
  refine ⟨h2, ?_, ghzDouble_fifteen, gfb_double_fifteen⟩
  rw [h2]
  norm_num [firstBand, ieee_freq_band_ghz, bandMatches]

/-- C1 (amended): on the [1, 110] GHz domain the classifier returns exactly
one of the nine band names, the first table entry whose inclusive range
contains the frequency as computed — in exact arithmetic the first entry
containing 0.3/(w/100); but the program computes the frequency in IEEE double
arithmetic, so at the shared L/S boundary (w = 15 cm, exactly 2 GHz) the
computed value is 2 + 2⁻⁵¹ and the code returns the later band "S", which is
the first entry containing that computed frequency. -/
theorem c1_first_match_band :
    (∀ w : ℚ, 1 ≤ freqGhz w → freqGhz w ≤ 110 →
        ∃ b, get_frequency_band w = .ok b ∧ b ∈ bandNames ∧ firstBand (freqGhz w) = some b)
      ∧ ghzDouble 15 = 2 + 1 / 2 ^ 51
      ∧ get_frequency_band_double 15 = .ok "S"
      ∧ firstBand (ghzDouble 15) = some "S" := by
  refine ⟨fun w h1 h2 => get_frequency_band_ok w h1 h2, ghzDouble_fifteen,
    gfb_double_fifteen, ?_⟩
  rw [ghzDouble_fifteen]
  norm_num [firstBand, ieee_freq_band_ghz, bandMatches]

/-- Witness for C1 (amended) at the interior point w = 5 cm (6 GHz, band C)
and the boundary point w = 15 cm. -/
theorem c1_first_match_band_witness :
    (∃ b, get_frequency_band 5 = .ok b ∧ b ∈ bandNames ∧ firstBand (freqGhz 5) = some b)
      ∧ get_frequency_band_double 15 = .ok "S" :=
  ⟨c1_first_match_band.1 5 (by norm_num [freqGhz]) (by norm_num [freqGhz]),
    c1_first_match_band.2.2.1⟩

/-- C2 counterexample: at w = 0 (a non-positive wavelength, derived frequency
below 1 in the rational model) the code raises `ZeroDivisionError`, not the
`ValueError` ("InvalidWavelengthError") the claim requires. -/
theorem c2_zero_wavelength_counterexample :
    freqGhz 0 < 1
      ∧ get_frequency_band 0 = .error .zeroDivision
      ∧ get_frequency_band 0 ≠ .error .invalidWavelength := by
  refine ⟨by norm_num [freqGhz], gfb_zero, ?_⟩
  intro h
  rw [gfb_zero] at h
  exact FreqErr.noConfusion (Except.error.inj h)

/-- C2 (amended): for every nonzero w with derived frequency strictly below 1
or above 110, `get_frequency_band` fails with the invalid-wavelength
`ValueError`; at w = 0 it fails with `ZeroDivisionError` instead; and it never
fails when the derived frequency lies in [1, 110]. -/
theorem c2_out_of_range_error :
    (∀ w : ℚ, w ≠ 0 → (freqGhz w < 1 ∨ 110 < freqGhz w) →
        get_frequency_band w = .error .invalidWavelength)
      ∧ get_frequency_band 0 = .error .zeroDivision
      ∧ (∀ w : ℚ, 1 ≤ freqGhz w → freqGhz w ≤ 110 →
          ∃ b, get_frequency_band w = .ok b) := by
  refine ⟨fun w hw h => ?_, gfb_zero, fun w h1 h2 => ?_⟩
  · rw [get_frequency_band_of_ne_zero w hw]
    exact findBand_out_of_range (freqGhz w) h
  · obtain ⟨b, hb, -, -⟩ := get_frequency_band_ok w h1 h2
    exact ⟨b, hb⟩

/-- Witness for C2 (amended) at w = 1000 cm (0.03 GHz), w = 0, and w = 30 cm. -/
theorem c2_out_of_range_error_witness :
    get_frequency_band 1000 = .error .invalidWavelength
      ∧ get_frequency_band 0 = .error .zeroDivision
      ∧ ∃ b, get_frequency_band 30 = .ok b := by
  refine ⟨c2_out_of_range_error.1 1000 (by norm_num) (Or.inl (by norm_num [freqGhz])),
    c2_out_of_range_error.2.1,
    c2_out_of_range_error.2.2 30 (by norm_num [freqGhz]) (by norm_num [freqGhz])⟩

/-! ## Block parser: the two scanning loops of `main`

String primitives of the source language are modelled on character lists so
that every definition is structurally recursive and kernel-evaluable. -/

/-- Python `str.lstrip()`: drop leading whitespace. -/
def lstrip (s : String) : String := String.mk (s.data.dropWhile Char.isWhitespace)

/-- Python `s.startswith(p)`: `p` is a prefix of the character sequence. -/
def strStartsWith (s p : String) : Bool := p.data.isPrefixOf s.data

/-- `re.sub(" +", ",", line)`, one left-to-right pass: the first space of each
maximal run emits one comma; the run's remaining spaces emit nothing. The flag
records whether the previous character was a space of a pending run. -/
def collapseSpacesAux : Bool → List Char → List Char
  | _, [] => []
  | inRun, c :: rest =>
      if c = ' ' then
        (if inRun then collapseSpacesAux true rest else ',' :: collapseSpacesAux true rest)
      else c :: collapseSpacesAux false rest

def collapseSpaces (l : List Char) : List Char := collapseSpacesAux false l

/-- `re.sub("_+", "", line)`: a maximal run of underscores is replaced by the
empty string, i.e. each underscore character is deleted. -/
def subUnderscoreRuns : List Char → List Char
  | [] => []
  | c :: rest => if c = '_' then subUnderscoreRuns rest else c :: subUnderscoreRuns rest

/-- `line.replace("_", "")` (type-data section): delete each underscore. -/
def replaceUnderscores : List Char → List Char
  | [] => []
  | c :: rest => if c = '_' then replaceUnderscores rest else c :: replaceUnderscores rest

/-- The site-section line normalization: `lstrip`, collapse space runs to
commas, delete underscore runs. -/
def normSiteLine (c : String) : String :=
  String.mk (subUnderscoreRuns (collapseSpaces (lstrip c).data))

/-- The type-section line normalization: `lstrip`, collapse space runs to
commas, then `.replace("_", "")`. -/
def normTypeLine (c : String) : String :=
  String.mk (replaceUnderscores (collapseSpaces (lstrip c).data))

/-- Python `str.splitlines()` for newline-separated text, on character lists.
(A trailing final newline yields a trailing empty line here, which every scan
below skips as a line of length ≤ 1.) -/
def splitLinesList : List Char → List (List Char)
  | [] => [[]]
  | c :: rest =>
      if c = '\n' then [] :: splitLinesList rest
      else match splitLinesList rest with
        | [] => [[c]]
        | l :: ls => (c :: l) :: ls

def splitLines (s : String) : List String := (splitLinesList s.data).map String.mk

/-- The `for c in content.splitlines()` loop of the RADAR SITE DATA section:
skip short, comment and disabled lines; toggle `read` at the start marker;
`break` at the end marker; collect normalized lines while `read` is set. -/
def siteScan : List String → Bool → List String
  | [], _ => []
  | c :: rest, read =>
      if c.length ≤ 1 then siteScan rest read
      else if strStartsWith c "#" then siteScan rest read
      else if strStartsWith (lstrip c) "0 " then siteScan rest read
      else if strStartsWith c "RADAR SITE DATA" then siteScan rest true
      else if strStartsWith c "END RADAR SITE DATA" then []
      else if read then normSiteLine c :: siteScan rest read
      else siteScan rest read

/-- The analogous loop of the RADAR TYPE DATA section. -/
def typeScan : List String → Bool → List String
  | [], _ => []
  | c :: rest, read =>
      if c.length ≤ 1 then typeScan rest read
      else if strStartsWith c "#" then typeScan rest read
      else if strStartsWith (lstrip c) "0 " then typeScan rest read
      else if strStartsWith c "RADAR TYPE DATA" then typeScan rest true
      else if strStartsWith c "END RADAR TYPE DATA" then []
      else if read then normTypeLine c :: typeScan rest read
      else typeScan rest read

/-- C3: the site-section scan skips short lines, `#` lines and `"0 "`-lines
(the concrete line `"0 3 ABC 12.3"` produces no record); a line inside the
active section is left-trimmed with space runs collapsed to commas
(`"  3   ABC   12.3"` becomes `"3,ABC,12.3"`); a non-marker line outside the
section produces no record; and the end marker stops the scan entirely. -/
theorem c3_block_parser_lines :
    (∀ (c : String) (rest : List String) (read : Bool), c.length ≤ 1 →
        siteScan (c :: rest) read = siteScan rest read)
      ∧ (∀ (c : String) (rest : List String) (read : Bool), strStartsWith c "#" = true →
          siteScan (c :: rest) read = siteScan rest read)
      ∧ (∀ (c : String) (rest : List String) (read : Bool),
          strStartsWith (lstrip c) "0 " = true →
          siteScan (c :: rest) read = siteScan rest read)
      ∧ (∀ (rest : List String) (read : Bool),
          siteScan ("0 3 ABC 12.3" :: rest) read = siteScan rest read)
      ∧ (∀ (c : String) (rest : List String), ¬ c.length ≤ 1 →
          strStartsWith c "#" = false → strStartsWith (lstrip c) "0 " = false →
          strStartsWith c "RADAR SITE DATA" = false →
          strStartsWith c "END RADAR SITE DATA" = false →
          siteScan (c :: rest) true = normSiteLine c :: siteScan rest true)
      ∧ normSiteLine "  3   ABC   12.3" = "3,ABC,12.3"
      ∧ (∀ (c : String) (rest : List String), ¬ c.length ≤ 1 →
          strStartsWith c "#" = false → strStartsWith (lstrip c) "0 " = false →
          strStartsWith c "RADAR SITE DATA" = false →
          strStartsWith c "END RADAR SITE DATA" = false →
          siteScan (c :: rest) false = siteScan rest false)
      ∧ (∀ (c : String) (rest : List String) (read : Bool), ¬ c.length ≤ 1 →
          strStartsWith c "#" = false → strStartsWith (lstrip c) "0 " = false →
          strStartsWith c "RADAR SITE DATA" = false →
          strStartsWith c "END RADAR SITE DATA" = true →
          siteScan (c :: rest) read = []) := by
  refine ⟨fun c rest read h => by simp [siteScan, h],
    fun c rest read h => ?_,
    fun c rest read h => ?_,
    fun rest read => ?_,
    fun c rest h1 h2 h3 h4 h5 => by simp [siteScan, h1, h2, h3, h4, h5],
    by decide,
    fun c rest h1 h2 h3 h4 h5 => by simp [siteScan, h1, h2, h3, h4, h5],
    fun c rest read h1 h2 h3 h4 h5 => by simp [siteScan, h1, h2, h3, h4, h5]⟩
  · by_cases hl : c.length ≤ 1 <;> simp [siteScan, hl, h]
  · by_cases hl : c.length ≤ 1
    · simp [siteScan, hl]
    · by_cases hh : strStartsWith c "#" <;> simp [siteScan, hl, hh, h]
  · by_cases hr : read = true <;> simp_all [siteScan, lstrip, strStartsWith]

/-- Witness for C3 on a concrete line list with one line of each kind. -/
theorem c3_block_parser_lines_witness :
    siteScan ("x" :: []) false = siteScan [] false
      ∧ siteScan ("# comment" :: []) true = siteScan [] true
      ∧ siteScan ("  0 disabled" :: []) true = siteScan [] true
      ∧ siteScan ("0 3 ABC 12.3" :: []) true = siteScan [] true
      ∧ siteScan ("  3   ABC   12.3" :: []) true
          = normSiteLine "  3   ABC   12.3" :: siteScan [] true
      ∧ siteScan ("  3   ABC   12.3" :: []) false = siteScan [] false
      ∧ siteScan ("END RADAR SITE DATA" :: ["  9   Z   1.0"]) true = [] :=
  ⟨c3_block_parser_lines.1 "x" [] false (by decide),
    c3_block_parser_lines.2.1 "# comment" [] true (by decide),
    c3_block_parser_lines.2.2.1 "  0 disabled" [] true (by decide),
    c3_block_parser_lines.2.2.2.1 [] true,
    c3_block_parser_lines.2.2.2.2.1 "  3   ABC   12.3" [] (by decide) (by decide)
      (by decide) (by decide) (by decide),
    c3_block_parser_lines.2.2.2.2.2.2.1 "  3   ABC   12.3" [] (by decide) (by decide)
      (by decide) (by decide) (by decide),
    c3_block_parser_lines.2.2.2.2.2.2.2 "END RADAR SITE DATA" ["  9   Z   1.0"] true
      (by decide) (by decide) (by decide) (by decide) (by decide)⟩

/-- Helper: both underscore-removal passes are the same total filter. -/
theorem subUnderscoreRuns_eq_filter (l : List Char) :
    subUnderscoreRuns l = l.filter (fun x => x ≠ '_') := by
  induction l with
  | nil => rfl
  | cons c rest ih =>
      by_cases h : c = '_' <;> simp [subUnderscoreRuns, List.filter, h, ih]

/-- Helper: `replace("_", "")` is that same filter. -/
theorem replaceUnderscores_eq_filter (l : List Char) :
    replaceUnderscores l = l.filter (fun x => x ≠ '_') := by
  induction l with
  | nil => rfl
  | cons c rest ih =>
      by_cases h : c = '_' <;> simp [replaceUnderscores, List.filter, h, ih]

/-- C10: the site-data pass (`re.sub("_+", "")`) and the type-data pass
(`replace("_", "")`) both delete every underscore, wherever it occurs — the
two normalizations agree on every line, and a normalized site-section line
never contains an underscore. -/
theorem c10_underscore_removal (c : String) :
    subUnderscoreRuns c.data = c.data.filter (fun x => x ≠ '_')
      ∧ replaceUnderscores c.data = c.data.filter (fun x => x ≠ '_')
      ∧ normSiteLine c = normTypeLine c
      ∧ '_' ∉ (normSiteLine c).data := by
  refine ⟨subUnderscoreRuns_eq_filter c.data, replaceUnderscores_eq_filter c.data, ?_, ?_⟩
  · unfold normSiteLine normTypeLine
    rw [subUnderscoreRuns_eq_filter, replaceUnderscores_eq_filter]
  · unfold normSiteLine
    rw [subUnderscoreRuns_eq_filter]
    simp

/-! ## Row data model (the pandas tables of `main`) -/

/-- One record of the site section, per the header
`id short_name site_lat site_lon site_alt type typetext SitesDB_ID`. -/
structure SiteRow where
  id : ℚ
  short_name : String
  site_lat : ℚ
  site_lon : ℚ
  site_alt : ℚ
  type : ℚ
  typetext : String
  SitesDB_ID : String
deriving DecidableEq, Repr

/-- One record of the type section, per the header
`type typetext wavelength beamwidth Vbeamwidth`. -/
structure TypeRow where
  type : ℚ
  typetext : String
  wavelength : ℚ
  beamwidth : ℚ
  Vbeamwidth : ℚ
deriving DecidableEq, Repr

/-- One row of `dfsite.merge(dftype, how="left", on="typetext")`: the site
columns plus the three joined type columns, which are empty (NaN) when the
site's typetext matched no type row. -/
structure JoinedRow where
  id : ℚ
  short_name : String
  site_lat : ℚ
  site_lon : ℚ
  site_alt : ℚ
  type : ℚ
  typetext : String
  SitesDB_ID : String
  wavelength : Option ℚ
  beamwidth : Option ℚ
  Vbeamwidth : Option ℚ
deriving DecidableEq, Repr

/-- One output row after `set_index("id", drop=True)`: the id is the index
(carried separately), not a regular column. -/
structure OutRowData where
  short_name : String
  site_lat : ℚ
  site_lon : ℚ
  site_alt : ℚ
  type : ℚ
  typetext : String
  SitesDB_ID : String
  wavelength : Option ℚ
  beamwidth : Option ℚ
  Vbeamwidth : Option ℚ
  band : String
deriving DecidableEq, Repr

/-! ## Filesystem and network model

File contents are modelled as optional values: `none` means the file does not
exist. The output file's content is the table that `to_csv` would serialize. -/

/-- An HTTP response as `requests.get` returns it: a status code and a body.
The source reads only `r.content`. -/
structure HttpResponse where
  status : Nat
  body : String

/-- The three files the program touches. -/
structure FileSys where
  cache : Option String
  temp : Option String
  output : Option (List (ℚ × OutRowData))

/-- The `ValueError` raised by `check_update` on an empty response body. -/
inductive FetchErr where
  | emptyBody
deriving DecidableEq, Repr

/-- `try: os.remove(tempfile) except FileNotFoundError: pass` — if the temp
file exists it is removed; if it is already gone the error is swallowed and
nothing changes. -/
def tryRemoveTemp (fs : FileSys) : FileSys :=
  match fs.temp with
  | some _ => { fs with temp := none }
  | none => fs

/-- `check_update()`: fetch, reject an empty body, bootstrap the cache when it
is missing, otherwise write the temp file, compare contents
(`filecmp.cmp`), on difference remove the cache and rename the temp file into
place, and finally remove the temp file, swallowing a missing-file error.
Returns the `updated` flag alongside the resulting filesystem state. -/
def check_update (r : HttpResponse) (fs : FileSys) : Except FetchErr Bool × FileSys :=
  let content := r.body
  if content.length = 0 then (.error .emptyBody, fs)
  else
    match fs.cache with
    | none => (.ok true, { fs with cache := some content })
    | some old =>
        let fsT := { fs with temp := some content }
        if ¬ old = content then
          (.ok true, tryRemoveTemp { fsT with cache := some content, temp := none })
        else
          (.ok false, tryRemoveTemp fsT)

/-- Closed form of `check_update`: the four exit paths. -/
theorem check_update_eq (r : HttpResponse) (fs : FileSys) :
    check_update r fs =
      if r.body.length = 0 then (.error .emptyBody, fs)
      else
        match fs.cache with
        | none => (.ok true, { fs with cache := some r.body })
        | some old =>
            if old = r.body then (.ok false, { fs with temp := none })
            else (.ok true, { fs with cache := some r.body, temp := none }) := by
  unfold check_update
  by_cases hb : r.body.length = 0
  · simp [hb]
  · cases hc : fs.cache with
    | none => simp [hb]
    | some old =>
        by_cases he : old = r.body <;> simp [hb, he, tryRemoveTemp]

/-- Helper: `check_update` never touches the output file. -/
theorem check_update_output (r : HttpResponse) (fs : FileSys) :
    ((check_update r fs).2).output = fs.output := by
  rw [check_update_eq]
  by_cases hb : r.body.length = 0
  · simp [hb]
  · cases hc : fs.cache with
    | none => simp [hb, hc]
    | some old => by_cases he : old = r.body <;> simp [hb, hc, he]

/-- Helper: a `false` result leaves the cache file untouched. -/
theorem check_update_false_cache (r : HttpResponse) (fs : FileSys) (fs2 : FileSys)
    (h : check_update r fs = (.ok false, fs2)) : fs2.cache = fs.cache := by
  rw [check_update_eq] at h
  by_cases hb : r.body.length = 0
  · simp [hb] at h
  · cases hc : fs.cache with
    | none => rw [hc] at h; simp [hb] at h
    | some old =>
        rw [hc] at h
        by_cases he : old = r.body
        · simp [hb, he] at h
          rw [← h]
          simp [he]
        · simp [hb, he] at h

/-- C4: with a nonempty body, `check_update` reports `true` exactly when the
cache is missing or differs from the fetched content; afterwards the cache
equals the fetched content; an identical cache yields `false` with the cache
untouched; and an immediate second call with the same content yields `false`
and still leaves the cache equal to the fetched content. -/
theorem c4_check_update_cache (r : HttpResponse) (fs : FileSys)
    (h : r.body.length ≠ 0) :
    ((check_update r fs).1 = .ok true ↔ fs.cache ≠ some r.body)
      ∧ (check_update r fs).2.cache = some r.body
      ∧ (fs.cache = some r.body →
          (check_update r fs).1 = .ok false ∧ (check_update r fs).2.cache = fs.cache)
      ∧ (check_update r ((check_update r fs).2)).1 = .ok false
      ∧ (check_update r ((check_update r fs).2)).2.cache = some r.body := by
  have step : ∀ g : FileSys,
      ((check_update r g).1 = .ok true ↔ g.cache ≠ some r.body)
        ∧ (check_update r g).2.cache = some r.body
        ∧ (g.cache = some r.body → (check_update r g).1 = .ok false) := by
    intro g
    rw [check_update_eq]
    cases hc : g.cache with
    | none => simp [h, hc]
    | some old => by_cases he : old = r.body <;> simp [h, hc, he]
  refine ⟨(step fs).1, (step fs).2.1,
    fun heq => ⟨(step fs).2.2 heq, by rw [(step fs).2.1, heq]⟩,
    (step _).2.2 (step fs).2.1, (step _).2.1⟩

/-- Witness for C4: first call on an empty filesystem bootstraps the cache. -/
theorem c4_check_update_cache_witness :
    (check_update ⟨200, "a"⟩ ⟨none, none, none⟩).2.cache = some "a"
      ∧ (check_update ⟨200, "a"⟩ ((check_update ⟨200, "a"⟩ ⟨none, none, none⟩).2)).1 = .ok false :=
  ⟨(c4_check_update_cache ⟨200, "a"⟩ ⟨none, none, none⟩ (by decide)).2.1,
    (c4_check_update_cache ⟨200, "a"⟩ ⟨none, none, none⟩ (by decide)).2.2.2.1⟩

/-- C8 counterexample: a non-2xx response (status 404) with a nonempty body is
not rejected — the source never checks the status code, so the comparison
proceeds and the call reports `false` instead of failing. -/
theorem c8_non2xx_counterexample :
    (check_update ⟨404, "x"⟩ ⟨some "x", none, none⟩).1 = .ok false := rfl

/-- C8 (amended): `check_update` fails (with the empty-body `ValueError`) if
and only if the response body is empty, whatever the status code; the failure
happens before any comparison and leaves every file untouched. -/
theorem c8_empty_body_error (r : HttpResponse) (fs : FileSys) :
    (r.body.length = 0 → check_update r fs = (.error .emptyBody, fs))
      ∧ (r.body.length ≠ 0 → ∃ b fs2, check_update r fs = (.ok b, fs2)) := by
  constructor
  · intro h
    rw [check_update_eq]
    simp [h]
  · intro h
    rw [check_update_eq]
    cases hc : fs.cache with
    | none => exact ⟨true, { fs with cache := some r.body }, by simp [h, hc]⟩
    | some old =>
        by_cases he : old = r.body
        · exact ⟨false, { fs with temp := none }, by simp [h, hc, he]⟩
        · exact ⟨true, { fs with cache := some r.body, temp := none }, by simp [h, hc, he]⟩

/-- Witness for C8 (amended): an empty body fails and changes nothing; a
nonempty body succeeds. -/
theorem c8_empty_body_error_witness :
    check_update ⟨500, ""⟩ ⟨some "x", some "t", none⟩
        = (.error .emptyBody, ⟨some "x", some "t", none⟩)
      ∧ ∃ b fs2, check_update ⟨404, "x"⟩ ⟨some "x", none, none⟩ = (.ok b, fs2) :=
  ⟨(c8_empty_body_error ⟨500, ""⟩ ⟨some "x", some "t", none⟩).1 (by decide),
    (c8_empty_body_error ⟨404, "x"⟩ ⟨some "x", none, none⟩).2 (by decide)⟩

/-- C9: whenever `check_update` returns a result, the temporary file is gone
(`fs2.temp = none`); the only failing exit (empty body) happens before the
temp file is created and leaves the state untouched; and the swallowed
missing-file condition in the cleanup leaves the state unchanged — which is
exactly the changed-branch exit, where the temp file was already renamed away. -/
theorem c9_no_dangling_temp (r : HttpResponse) (fs : FileSys) :
    (∀ b fs2, check_update r fs = (.ok b, fs2) → fs.cache ≠ none → fs2.temp = none)
      ∧ ((check_update r fs).1 = .error .emptyBody → (check_update r fs).2 = fs)
      ∧ (∀ g : FileSys, g.temp = none → tryRemoveTemp g = g) := by
  refine ⟨?_, ?_, fun g hg => by unfold tryRemoveTemp; rw [hg]⟩
  · intro b fs2 hh hcache
    rw [check_update_eq] at hh
    by_cases hb : r.body.length = 0
    · simp [hb] at hh
    · cases hc : fs.cache with
      | none => exact absurd hc hcache
      | some old =>
          rw [hc] at hh
          by_cases he : old = r.body <;> simp [hb, he] at hh <;>
            rw [← hh.2]
  · intro hh
    rw [check_update_eq] at *
    by_cases hb : r.body.length = 0
    · simp [hb]
    · exfalso
      cases hc : fs.cache with
      | none => rw [hc] at hh; simp [hb] at hh
      | some old =>
          rw [hc] at hh
          by_cases he : old = r.body <;> simp [hb, he] at hh

/-- Witness for C9 on the changed branch (cache differs from the body). -/
theorem c9_no_dangling_temp_witness :
    (check_update ⟨200, "new"⟩ ⟨some "old", none, none⟩).2.temp = none
      ∧ tryRemoveTemp ⟨some "old", none, none⟩ = ⟨some "old", none, none⟩ :=
  ⟨(c9_no_dangling_temp ⟨200, "new"⟩ ⟨some "old", none, none⟩).1 true
      ⟨some "new", none, none⟩ rfl (by decide),
    (c9_no_dangling_temp ⟨200, "new"⟩ ⟨some "old", none, none⟩).2.2
      ⟨some "old", none, none⟩ rfl⟩

/-! ## Reading the records into rows (`pd.read_csv` on the generated text) -/

/-- Split a character list at a separator character (CSV field splitting). -/
def splitOnChar (sep : Char) : List Char → List (List Char)
  | [] => [[]]
  | c :: rest =>
      if c = sep then [] :: splitOnChar sep rest
      else match splitOnChar sep rest with
        | [] => [[c]]
        | l :: ls => (c :: l) :: ls

def splitFields (s : String) : List String := (splitOnChar ',' s.data).map String.mk

/-- Value of a digit string. -/
def digitsVal (l : List Char) : ℕ := l.foldl (fun n c => 10 * n + (c.toNat - 48)) 0

/-- Split at the first decimal point, remembering whether one was present. -/
def breakDot : List Char → List Char × Option (List Char)
  | [] => ([], none)
  | c :: rest =>
      if c = '.' then ([], some rest)
      else
        let p := breakDot rest
        (c :: p.1, p.2)

/-- Unsigned decimal numeral to an exact rational. -/
def parseUQ (l : List Char) : Option ℚ :=
  match breakDot l with
  | (ip, none) =>
      if ip ≠ [] ∧ ip.all Char.isDigit then some (digitsVal ip) else none
  | (ip, some fp) =>
      if (ip ≠ [] ∨ fp ≠ []) ∧ ip.all Char.isDigit ∧ fp.all Char.isDigit then
        some ((digitsVal ip : ℚ) + (digitsVal fp : ℚ) / (10 : ℚ) ^ fp.length)
      else none

/-- `pd.read_csv` numeric field parsing for the plain decimal numerals of this
data: optional leading minus, digits, optional fraction. -/
def parseQ (s : String) : Option ℚ :=
  match s.data with
  | '-' :: rest => (parseUQ rest).map (fun q => -q)
  | l => parseUQ l

/-- One site record under the header
`id,short_name,site_lat,site_lon,site_alt,type,typetext,SitesDB_ID`. -/
def parseSiteRow (s : String) : Option SiteRow :=
  match splitFields s with
  | [i, sn, la, lo, al, ty, tt, db] =>
      match parseQ i, parseQ la, parseQ lo, parseQ al, parseQ ty with
      | some iv, some lav, some lov, some alv, some tyv =>
          some ⟨iv, sn, lav, lov, alv, tyv, tt, db⟩
      | _, _, _, _, _ => none
  | _ => none

/-- One type record under the header `type,typetext,wavelength,beamwidth,Vbeamwidth`. -/
def parseTypeRow (s : String) : Option TypeRow :=
  match splitFields s with
  | [ty, tt, wl, bw, vb] =>
      match parseQ ty, parseQ wl, parseQ bw, parseQ vb with
      | some tyv, some wlv, some bwv, some vbv =>
          some ⟨tyv, tt, wlv, bwv, vbv⟩
      | _, _, _, _ => none
  | _ => none

/-- `read_csv` is all-or-nothing: any malformed record fails the whole read. -/
def parseSiteRows : List String → Option (List SiteRow)
  | [] => some []
  | s :: rest =>
      match parseSiteRow s, parseSiteRows rest with
      | some r, some rs => some (r :: rs)
      | _, _ => none

def parseTypeRows : List String → Option (List TypeRow)
  | [] => some []
  | s :: rest =>
      match parseTypeRow s, parseTypeRows rest with
      | some r, some rs => some (r :: rs)
      | _, _ => none

/-- `dfsite`: scan the site section of the cached text and read its records. -/
def parseSiteTable (content : String) : Option (List SiteRow) :=
  parseSiteRows (siteScan (splitLines content) false)

/-- `dftype`: scan the type section and read its records (`index_col="type"`
only moves the type code out of the joinable columns, which the join below
reflects by never contributing it). -/
def parseTypeTable (content : String) : Option (List TypeRow) :=
  parseTypeRows (typeScan (splitLines content) false)

/-! ## The join and the output table -/

/-- A site row that matched no type row: the joined columns are empty (NaN). -/
def unmatchedJoin (s : SiteRow) : JoinedRow :=
  { id := s.id, short_name := s.short_name, site_lat := s.site_lat,
    site_lon := s.site_lon, site_alt := s.site_alt, type := s.type,
    typetext := s.typetext, SitesDB_ID := s.SitesDB_ID,
    wavelength := none, beamwidth := none, Vbeamwidth := none }

/-- A site row paired with one matching type row. -/
def matchedJoin (s : SiteRow) (t : TypeRow) : JoinedRow :=
  { id := s.id, short_name := s.short_name, site_lat := s.site_lat,
    site_lon := s.site_lon, site_alt := s.site_alt, type := s.type,
    typetext := s.typetext, SitesDB_ID := s.SitesDB_ID,
    wavelength := some t.wavelength, beamwidth := some t.beamwidth,
    Vbeamwidth := some t.Vbeamwidth }

/-- `dfsite.merge(dftype, how="left", on="typetext")`: every site row is kept,
paired with each type row of equal typetext, or with empty columns if none. -/
def leftJoin (sites : List SiteRow) (types : List TypeRow) : List JoinedRow :=
  sites.flatMap fun s =>
    match types.filter (fun t => t.typetext = s.typetext) with
    | [] => [unmatchedJoin s]
    | ms => ms.map (matchedJoin s)

/-- `df.site_lat = -df.site_lat` and `df[["wavelength", "beamwidth",
"Vbeamwidth"]] /= 10`, applied to one row. -/
def scaleRow (r : JoinedRow) : JoinedRow :=
  { r with
    site_lat := -(r.site_lat),
    wavelength := r.wavelength.map (fun x => x / 10),
    beamwidth := r.beamwidth.map (fun x => x / 10),
    Vbeamwidth := r.Vbeamwidth.map (fun x => x / 10) }

/-- `get_frequency_band` applied to a possibly-empty wavelength column entry:
a NaN wavelength (unmatched join) makes every comparison in the band loop
false, so the source raises the invalid-wavelength `ValueError`. -/
def bandOf : Option ℚ → Except FreqErr String
  | none => .error .invalidWavelength
  | some w => get_frequency_band w

/-- One output row: the site id becomes the index, the rest the columns. -/
def outRow (r : JoinedRow) (b : String) : OutRowData :=
  { short_name := r.short_name, site_lat := r.site_lat, site_lon := r.site_lon,
    site_alt := r.site_alt, type := r.type, typetext := r.typetext,
    SitesDB_ID := r.SitesDB_ID, wavelength := r.wavelength,
    beamwidth := r.beamwidth, Vbeamwidth := r.Vbeamwidth, band := b }

/-- `df["band"] = df.wavelength.apply(get_frequency_band)` followed by
`df.set_index("id", drop=True)`: the first failing row aborts the whole
column computation. -/
def mapBand : List JoinedRow → Except FreqErr (List (ℚ × OutRowData))
  | [] => .ok []
  | r :: rest =>
      match bandOf r.wavelength with
      | .error e => .error e
      | .ok b =>
          match mapBand rest with
          | .error e => .error e
          | .ok out => .ok ((r.id, outRow r b) :: out)

/-- The whole dataframe pipeline of `main` after the two `read_csv` calls:
join, sign-flip and scale every row, then compute the band column and index
by id. -/
def transform (sites : List SiteRow) (types : List TypeRow) :
    Except FreqErr (List (ℚ × OutRowData)) :=
  mapBand ((leftJoin sites types).map scaleRow)

/-- Errors that abort `main` after a successful update check. -/
inductive MainError where
  | fetch (e : FetchErr)
  | cacheMissing
  | parse
  | band (e : FreqErr)
deriving DecidableEq, Repr

/-- Parse both sections of the cached text and run the table pipeline. -/
def buildOutput (content : String) : Except MainError (List (ℚ × OutRowData)) :=
  match parseSiteTable content, parseTypeTable content with
  | some sites, some types =>
      match transform sites types with
      | .error e => .error (.band e)
      | .ok t => .ok t
  | _, _ => .error .parse

/-- `main()`: check for an update, short-circuit when nothing changed and the
output file exists, otherwise rebuild the output table from the cached text
and write it only on full success. -/
def mainRun (r : HttpResponse) (fs : FileSys) : Except MainError Unit × FileSys :=
  match check_update r fs with
  | (.error e, fs1) => (.error (.fetch e), fs1)
  | (.ok updated, fs1) =>
      if updated = false ∧ fs1.output.isSome = true then (.ok (), fs1)
      else
        match fs1.cache with
        | none => (.error .cacheMissing, fs1)
        | some content =>
            match buildOutput content with
            | .error e => (.error e, fs1)
            | .ok table => (.ok (), { fs1 with output := some table })

/-! ## Theorems about the table builder and the pipeline -/

/-- Helper: band of the example wavelength 50 after the ÷10 scaling: 5 cm is
6 GHz, band C. -/
theorem gfb_wl50 : get_frequency_band ((50 : ℚ) / 10) = .ok "C" := by
  rw [get_frequency_band_of_ne_zero _ (by norm_num)]
  norm_num [findBand, ieee_freq_band_ghz, freqGhz]

/-- Helper: the transformed output of one site row joined to one matching
type row. -/
theorem transform_single (s : SiteRow) (t : TypeRow) (b : String)
    (htt : t.typetext = s.typetext)
    (hband : get_frequency_band (t.wavelength / 10) = .ok b) :
    transform [s] [t] = .ok [(s.id,
      { short_name := s.short_name, site_lat := -(s.site_lat),
        site_lon := s.site_lon, site_alt := s.site_alt, type := s.type,
        typetext := s.typetext, SitesDB_ID := s.SitesDB_ID,
        wavelength := some (t.wavelength / 10),
        beamwidth := some (t.beamwidth / 10),
        Vbeamwidth := some (t.Vbeamwidth / 10), band := b })] := by
  simp [transform, leftJoin, matchedJoin, scaleRow, mapBand, bandOf, outRow, htt, hband]

/-- C5: the table builder left-joins site rows onto type rows on typetext
(an unmatched site keeps empty join columns), negates the latitude, divides
wavelength and the two beamwidths by 10, computes the band from the scaled
wavelength, and keys each output row by the site id; in particular
site_lat = 10 with raw wavelength 50 yields site_lat = -10, wavelength = 5
and band "C". -/
theorem c5_table_builder :
    (∀ (s : SiteRow) (types : List TypeRow),
        types.filter (fun t => t.typetext = s.typetext) = [] →
        leftJoin [s] types = [unmatchedJoin s] ∧ (unmatchedJoin s).wavelength = none
          ∧ (unmatchedJoin s).beamwidth = none ∧ (unmatchedJoin s).Vbeamwidth = none)
      ∧ (∀ (s : SiteRow) (t : TypeRow) (b : String),
          t.typetext = s.typetext →
          get_frequency_band (t.wavelength / 10) = .ok b →
          transform [s] [t] = .ok [(s.id,
            { short_name := s.short_name, site_lat := -(s.site_lat),
              site_lon := s.site_lon, site_alt := s.site_alt, type := s.type,
              typetext := s.typetext, SitesDB_ID := s.SitesDB_ID,
              wavelength := some (t.wavelength / 10),
              beamwidth := some (t.beamwidth / 10),
              Vbeamwidth := some (t.Vbeamwidth / 10), band := b })])
      ∧ transform [⟨1, "AAA", 10, 120, 5, 3, "WSR", "77"⟩] [⟨3, "WSR", 50, 10, 10⟩]
          = .ok [(1, ⟨"AAA", -10, 120, 5, 3, "WSR", "77", some 5, some 1, some 1, "C"⟩)] := by
  refine ⟨fun s types hf => ⟨?_, rfl, rfl, rfl⟩, transform_single, ?_⟩
  · simp [leftJoin, hf]
  · rw [transform_single _ _ "C" rfl gfb_wl50]
    norm_num

/-- Witness for C5 at the concrete example rows. -/
theorem c5_table_builder_witness :
    (leftJoin [(⟨1, "AAA", 10, 120, 5, 3, "WSR", "77"⟩ : SiteRow)] []
        = [unmatchedJoin ⟨1, "AAA", 10, 120, 5, 3, "WSR", "77"⟩]
      ∧ (unmatchedJoin (⟨1, "AAA", 10, 120, 5, 3, "WSR", "77"⟩ : SiteRow)).wavelength = none
      ∧ (unmatchedJoin (⟨1, "AAA", 10, 120, 5, 3, "WSR", "77"⟩ : SiteRow)).beamwidth = none
      ∧ (unmatchedJoin (⟨1, "AAA", 10, 120, 5, 3, "WSR", "77"⟩ : SiteRow)).Vbeamwidth = none)
      ∧ transform [(⟨1, "AAA", 10, 120, 5, 3, "WSR", "77"⟩ : SiteRow)]
          [(⟨3, "WSR", 50, 10, 10⟩ : TypeRow)]
          = .ok [((1 : ℚ),
            { short_name := "AAA", site_lat := -(10 : ℚ),
              site_lon := 120, site_alt := 5, type := 3,
              typetext := "WSR", SitesDB_ID := "77",
              wavelength := some ((50 : ℚ) / 10),
              beamwidth := some ((10 : ℚ) / 10),
              Vbeamwidth := some ((10 : ℚ) / 10), band := "C" })] :=
  ⟨c5_table_builder.1 ⟨1, "AAA", 10, 120, 5, 3, "WSR", "77"⟩ [] rfl,
    c5_table_builder.2.1 ⟨1, "AAA", 10, 120, 5, 3, "WSR", "77"⟩ ⟨3, "WSR", 50, 10, 10⟩
      "C" rfl gfb_wl50⟩

/-- Helper: a failing band lookup on any row fails the whole column. -/
theorem mapBand_error (l : List JoinedRow)
    (h : ∃ r ∈ l, ∃ e, bandOf r.wavelength = .error e) :
    ∃ e, mapBand l = .error e := by
  induction l with
  | nil =>
      obtain ⟨r, hr, -⟩ := h
      exact absurd hr (List.not_mem_nil r)
  | cons a rest ih =>
      obtain ⟨r, hr, e0, he⟩ := h
      cases hb : bandOf a.wavelength with
      | error e2 => exact ⟨e2, by simp [mapBand, hb]⟩
      | ok b =>
          rcases List.mem_cons.mp hr with rfl | hr2
          · rw [hb] at he
            exact absurd he (by simp)
          · obtain ⟨e1, he1⟩ := ih ⟨r, hr2, e0, he⟩
            exact ⟨e1, by simp [mapBand, hb, he1]⟩

/-- Helper: on every failing exit of `mainRun` the output file is untouched. -/
theorem mainRun_output_on_error (r : HttpResponse) (fs : FileSys) (e : MainError)
    (h : (mainRun r fs).1 = .error e) : (mainRun r fs).2.output = fs.output := by
  have hout0 := check_update_output r fs
  rcases hcu : check_update r fs with ⟨res, fs1⟩
  rw [hcu] at hout0
  have hout : fs1.output = fs.output := hout0
  cases res with
  | error e2 => simp [mainRun, hcu, hout]
  | ok updated =>
      by_cases hsc : updated = false ∧ fs1.output.isSome = true
      · simp [mainRun, hcu, hsc] at h
      · cases hcache : fs1.cache with
        | none =>
            simp [mainRun, hcu, hsc, hcache]
            exact hout
        | some content =>
            cases hb : buildOutput content with
            | error e2 =>
                simp [mainRun, hcu, hsc, hcache, hb]
                exact hout
            | ok table => simp [mainRun, hcu, hsc, hcache, hb] at h

/-- C6: a band-classification failure on any joined row aborts the whole
table computation; every failing run of `main` leaves the output file exactly
as it was; and when the rebuilt table fails, `main` fails with that very
error while the pre-existing output file survives unmodified. -/
theorem c6_band_failure_aborts :
    (∀ (sites : List SiteRow) (types : List TypeRow),
        (∃ r ∈ (leftJoin sites types).map scaleRow, ∃ e, bandOf r.wavelength = .error e) →
        ∃ e, transform sites types = .error e)
      ∧ (∀ (r : HttpResponse) (fs : FileSys) (e : MainError),
          (mainRun r fs).1 = .error e → (mainRun r fs).2.output = fs.output)
      ∧ (∀ (r : HttpResponse) (fs : FileSys) (b : Bool) (fs1 : FileSys)
          (content : String) (e : MainError),
          check_update r fs = (.ok b, fs1) →
          ¬(b = false ∧ fs1.output.isSome = true) →
          fs1.cache = some content →
          buildOutput content = .error e →
          mainRun r fs = (.error e, fs1) ∧ fs1.output = fs.output) := by
  refine ⟨fun sites types h => mapBand_error _ h, mainRun_output_on_error, ?_⟩
  intro r fs b fs1 content e hcu hsc hcache hb
  constructor
  · simp [mainRun, hcu, hsc, hcache, hb]
  · have hout := check_update_output r fs
    rw [hcu] at hout
    exact hout

/-- Witness for C6: a site row whose typetext matches no type row gives an
empty wavelength, the classifier fails, and a run over such content fails
without touching the pre-existing (empty) output table. -/
theorem c6_band_failure_aborts_witness :
    (∃ e, transform [(⟨1, "AAA", 10, 120, 5, 3, "WSR", "77"⟩ : SiteRow)] [] = .error e)
      ∧ (mainRun ⟨200, "RADAR SITE DATA\n 1 AAA 10 120 5 3 WSR 77\nEND RADAR SITE DATA"⟩
            ⟨none, none, some []⟩
          = (.error (.band .invalidWavelength),
             ⟨some "RADAR SITE DATA\n 1 AAA 10 120 5 3 WSR 77\nEND RADAR SITE DATA",
              none, some []⟩)
        ∧ (⟨some "RADAR SITE DATA\n 1 AAA 10 120 5 3 WSR 77\nEND RADAR SITE DATA",
            none, some []⟩ : FileSys).output = (⟨none, none, some []⟩ : FileSys).output) :=
  ⟨c6_band_failure_aborts.1 [⟨1, "AAA", 10, 120, 5, 3, "WSR", "77"⟩] []
      ⟨scaleRow (unmatchedJoin ⟨1, "AAA", 10, 120, 5, 3, "WSR", "77"⟩),
        List.Mem.head _, .invalidWavelength, rfl⟩,
    c6_band_failure_aborts.2.2
      ⟨200, "RADAR SITE DATA\n 1 AAA 10 120 5 3 WSR 77\nEND RADAR SITE DATA"⟩
      ⟨none, none, some []⟩ true
      ⟨some "RADAR SITE DATA\n 1 AAA 10 120 5 3 WSR 77\nEND RADAR SITE DATA",
        none, some []⟩
      "RADAR SITE DATA\n 1 AAA 10 120 5 3 WSR 77\nEND RADAR SITE DATA"
      (.band .invalidWavelength) rfl (by simp) rfl rfl⟩

/-- C7: when `check_update` reports no change and the output file exists,
`main` returns right after the check with the output (and cache) files
byte-identical; in every other successful case the output file afterwards is
exactly the table rebuilt in full from the cached text. -/
theorem c7_short_circuit_or_rebuild :
    (∀ (r : HttpResponse) (fs : FileSys) (fs1 : FileSys),
        check_update r fs = (.ok false, fs1) → fs.output.isSome = true →
        mainRun r fs = (.ok (), fs1) ∧ fs1.output = fs.output ∧ fs1.cache = fs.cache)
      ∧ (∀ (r : HttpResponse) (fs : FileSys) (fs2 : FileSys),
          mainRun r fs = (.ok (), fs2) →
          ¬((check_update r fs).1 = .ok false ∧ fs.output.isSome = true) →
          ∃ c tbl, fs2.cache = some c ∧ buildOutput c = .ok tbl ∧ fs2.output = some tbl) := by
  constructor
  · intro r fs fs1 hcu hso
    have hout := check_update_output r fs
    rw [hcu] at hout
    have hcc := check_update_false_cache r fs fs1 hcu
    refine ⟨?_, hout, hcc⟩
    have hsc : (false = false ∧ fs1.output.isSome = true) := ⟨rfl, by rw [hout, hso]⟩
    simp [mainRun, hcu, hsc]
  · intro r fs fs2 hm hexcl
    have hout0 := check_update_output r fs
    rcases hcu : check_update r fs with ⟨res, fs1⟩
    rw [hcu] at hout0
    have hout : fs1.output = fs.output := hout0
    cases res with
    | error e2 => simp [mainRun, hcu] at hm
    | ok updated =>
        by_cases hsc : updated = false ∧ fs1.output.isSome = true
        · exact absurd ⟨by rw [hcu, hsc.1], by rw [← hout, hsc.2]⟩ hexcl
        · cases hcache : fs1.cache with
          | none => simp [mainRun, hcu, hsc, hcache] at hm
          | some content =>
              cases hb : buildOutput content with
              | error e2 => simp [mainRun, hcu, hsc, hcache, hb] at hm
              | ok table =>
                  simp [mainRun, hcu, hsc, hcache, hb] at hm
                  exact ⟨content, table, by rw [← hm], hb, by rw [← hm]⟩

/-- Witness for C7: the no-change short circuit, and a first run over content
with empty sections rebuilding an empty output table. -/
theorem c7_short_circuit_or_rebuild_witness :
    (mainRun ⟨200, "x"⟩ ⟨some "x", none, some []⟩ = (.ok (), ⟨some "x", none, some []⟩)
        ∧ (⟨some "x", none, some []⟩ : FileSys).output
            = (⟨some "x", none, some []⟩ : FileSys).output
        ∧ (⟨some "x", none, some []⟩ : FileSys).cache
            = (⟨some "x", none, some []⟩ : FileSys).cache)
      ∧ ∃ c tbl,
          (⟨some "RADAR SITE DATA\nEND RADAR SITE DATA", none, some []⟩ : FileSys).cache = some c
            ∧ buildOutput c = .ok tbl
            ∧ (⟨some "RADAR SITE DATA\nEND RADAR SITE DATA", none, some []⟩ : FileSys).output
                = some tbl :=
  ⟨c7_short_circuit_or_rebuild.1 ⟨200, "x"⟩ ⟨some "x", none, some []⟩
      ⟨some "x", none, some []⟩ rfl rfl,
    c7_short_circuit_or_rebuild.2 ⟨200, "RADAR SITE DATA\nEND RADAR SITE DATA"⟩
      ⟨none, none, none⟩
      ⟨some "RADAR SITE DATA\nEND RADAR SITE DATA", none, some []⟩ rfl (by simp)⟩

end S3car
